import Mathlib

/-!
Verification of the user-device registry service
(`storage/user_registry_service.py`, a FastAPI + asyncpg application).

The persistent state consists of three Postgres tables:

  registered_users(chat_id BIGINT PRIMARY KEY, username TEXT, first_name TEXT,
                   last_name TEXT, registered_at TIMESTAMP DEFAULT NOW())
  devices(device_id TEXT PRIMARY KEY, nickname TEXT,
          registered_at TIMESTAMP DEFAULT NOW())
  user_devices(chat_id BIGINT REFERENCES registered_users(chat_id),
               device_id TEXT REFERENCES devices(device_id),
               PRIMARY KEY (chat_id, device_id))

We embed the database as lists of rows and each route handler as a pure
function on that state.  Timestamps are modelled as an explicit `now : Nat`
argument standing for the SQL `NOW()` default.

A crucial point of fidelity: the `bind` handler issues its two INSERT
statements on one pooled connection but does NOT open a transaction
(there is no `async with c.transaction():` block in the source), so under
asyncpg each statement runs in its own implicit transaction and commits
independently.  The embedding therefore applies the device insert to the
state even when the subsequent subscription insert fails its foreign-key
check.  An uncaught database exception propagates out of the handler and
is turned into an HTTP 500 response by the framework; this boundary is
modelled by `bindHTTP`.
-/

namespace Registry

/-- A row of `registered_users`. -/
structure UserRow where
  chat_id : Int
  username : Option String
  first_name : Option String
  last_name : Option String
  registered_at : Nat
deriving DecidableEq, Repr

/-- A row of `devices`. -/
structure DeviceRow where
  device_id : String
  nickname : Option String
  registered_at : Nat
deriving DecidableEq, Repr

/-- The whole database state: the three tables.  A `user_devices` row is
just the `(chat_id, device_id)` pair, as in the DDL. -/
structure DB where
  registered_users : List UserRow
  devices : List DeviceRow
  user_devices : List (Int × String)
deriving DecidableEq, Repr

/-- The state right after the DDL ran on a fresh database. -/
def emptyDB : DB := ⟨[], [], []⟩

/-- Whether a `registered_users` row with this `chat_id` exists. -/
def userExists (db : DB) (c : Int) : Bool :=
  db.registered_users.any (fun r => r.chat_id == c)

/-- Whether a `devices` row with this `device_id` exists. -/
def deviceExists (db : DB) (d : String) : Bool :=
  db.devices.any (fun r => r.device_id == d)

/-- Whether a `user_devices` row for this exact pair exists. -/
def subExists (db : DB) (c : Int) (d : String) : Bool :=
  db.user_devices.any (fun p => p == (c, d))

/-- The row update performed by `/register`'s `ON CONFLICT (chat_id) DO
UPDATE SET username=$2, first_name=$3, last_name=$4` on a matching row:
the three profile fields are overwritten unconditionally, `registered_at`
is untouched. -/
def updUser (c : Int) (u f l : Option String) (r : UserRow) : UserRow :=
  if r.chat_id == c then
    { r with username := u, first_name := f, last_name := l }
  else r

/-- `POST /register` (handler `register`): upsert of a user row.
`INSERT ... ON CONFLICT (chat_id) DO UPDATE SET ...` — last write wins on
the profile fields. -/
def register (db : DB) (now : Nat) (c : Int) (u f l : Option String) : DB :=
  if userExists db c then
    { db with registered_users := db.registered_users.map (updUser c u f l) }
  else
    { db with registered_users := db.registered_users ++ [⟨c, u, f, l, now⟩] }

/-- The row update performed by `/devices`' `ON CONFLICT (device_id) DO
UPDATE SET nickname = COALESCE($2, devices.nickname)` on a matching row:
a null supplied nickname keeps the stored one. -/
def updDevice (d : String) (n : Option String) (r : DeviceRow) : DeviceRow :=
  if r.device_id == d then
    { r with nickname := match n with | some s => some s | none => r.nickname }
  else r

/-- `POST /devices` (handler `register_device`): upsert of a device row
with `COALESCE` merge semantics on the nickname. -/
def register_device (db : DB) (now : Nat) (d : String) (n : Option String) : DB :=
  if deviceExists db d then
    { db with devices := db.devices.map (updDevice d n) }
  else
    { db with devices := db.devices ++ [⟨d, n, now⟩] }

/-- The first statement of the `bind` handler:
`INSERT INTO devices(device_id) VALUES($1) ON CONFLICT DO NOTHING`.
Only `device_id` is supplied, so the new row has a NULL nickname and the
`registered_at` default. -/
def insertDeviceIfAbsent (db : DB) (now : Nat) (d : String) : DB :=
  if deviceExists db d then db
  else { db with devices := db.devices ++ [⟨d, none, now⟩] }

/-- Database errors that can surface from a statement.  The only one the
service can hit on well-formed input is the foreign-key violation raised
by the `user_devices` insert when the referenced user row is missing. -/
inductive DBError where
  | foreignKeyViolation
deriving DecidableEq, Repr

/-- The second statement of the `bind` handler:
`INSERT INTO user_devices(chat_id, device_id) VALUES($1,$2)
ON CONFLICT DO NOTHING`.
Postgres first detects a primary-key conflict (then skips the row,
checking no foreign keys), otherwise inserts the row and enforces both
foreign keys; a missing user row raises a foreign-key violation. -/
def insertSubscription (db1 : DB) (c : Int) (d : String) : DB × Except DBError Unit :=
  if subExists db1 c d then (db1, Except.ok ())
  else if userExists db1 c && deviceExists db1 d then
    ({ db1 with user_devices := db1.user_devices ++ [(c, d)] }, Except.ok ())
  else (db1, Except.error DBError.foreignKeyViolation)

/-- `POST /bind` (handler `bind`).  Two statements, each autocommitting
(the source opens no transaction): first the device insert with
`ON CONFLICT DO NOTHING`, then the subscription insert.  When the second
statement fails its foreign-key check, the state change of the first is
already committed. -/
def bind (db : DB) (now : Nat) (c : Int) (d : String) : DB × Except DBError Unit :=
  insertSubscription (insertDeviceIfAbsent db now d) c d

/-- `DELETE /bind` (handler `unbind`):
`DELETE FROM user_devices WHERE chat_id=$1 AND device_id=$2`.
Deleting zero rows is not an error. -/
def unbind (db : DB) (c : Int) (d : String) : DB :=
  { db with user_devices := db.user_devices.filter (fun p => !(p == (c, d))) }

/-- `GET /subscribers/{device_id}` (handler `subscribers_for_device`):
`SELECT chat_id FROM user_devices WHERE device_id=$1`, returned as a list
of chat ids. -/
def subscribers_for_device (db : DB) (d : String) : List Int :=
  (db.user_devices.filter (fun p => p.2 == d)).map (fun p => p.1)

/-- The HTTP boundary of `bind`: the route is declared with status 201;
an uncaught database exception is translated by the framework into an
HTTP 500 Internal Server Error response. -/
def bindHTTP (db : DB) (now : Nat) (c : Int) (d : String) : DB × Nat :=
  match bind db now c d with
  | (db1, Except.ok _) => (db1, 201)
  | (db1, Except.error _) => (db1, 500)

/-- The HTTP boundary of `unbind`: always status 200. -/
def unbindHTTP (db : DB) (c : Int) (d : String) : DB × Nat :=
  (unbind db c d, 200)

/-- The HTTP boundary of `subscribers_for_device`: always status 200 with
the (possibly empty) JSON array. -/
def subscribersHTTP (db : DB) (d : String) : List Int × Nat :=
  (subscribers_for_device db d, 200)

/-- Statuses in the 4xx range signal client errors. -/
def isClientError (s : Nat) : Bool := decide (400 ≤ s) && decide (s < 500)

/-- Statuses in the 5xx range signal server errors. -/
def isServerError (s : Nat) : Bool := decide (500 ≤ s) && decide (s < 600)

/-- Referential integrity of the state: every `user_devices` row points
at an existing user row and an existing device row (the two `REFERENCES`
clauses of the DDL). -/
def refIntegrity (db : DB) : Bool :=
  db.user_devices.all (fun p => userExists db p.1 && deviceExists db p.2)

/-- Projection of a user row to its three profile fields. -/
def profileOf (r : UserRow) : Option String × Option String × Option String :=
  (r.username, r.first_name, r.last_name)

/-- The nickname stored for a device, as `find?` sees it: `none` when no
row exists, `some n` when the row exists and stores nickname `n`. -/
def nicknameOf (db : DB) (d : String) : Option (Option String) :=
  (db.devices.find? (fun r => r.device_id == d)).map (fun r => r.nickname)

end Registry

namespace Registry

/-! ### Helper lemmas about the operations -/

theorem updUser_chat_id (c : Int) (u f l : Option String) (r : UserRow) :
    (updUser c u f l r).chat_id = r.chat_id := by
  unfold updUser; split <;> rfl

theorem updUser_registered_at (c : Int) (u f l : Option String) (r : UserRow) :
    (updUser c u f l r).registered_at = r.registered_at := by
  unfold updUser; split <;> rfl

theorem updDevice_device_id (d : String) (n : Option String) (r : DeviceRow) :
    (updDevice d n r).device_id = r.device_id := by
  unfold updDevice; split <;> rfl

theorem insertDeviceIfAbsent_users (db : DB) (now : Nat) (d : String) :
    (insertDeviceIfAbsent db now d).registered_users = db.registered_users := by
  unfold insertDeviceIfAbsent; split <;> rfl

theorem insertDeviceIfAbsent_subs (db : DB) (now : Nat) (d : String) :
    (insertDeviceIfAbsent db now d).user_devices = db.user_devices := by
  unfold insertDeviceIfAbsent; split <;> rfl

theorem insertDeviceIfAbsent_exists (db : DB) (now : Nat) (d : String) :
    deviceExists (insertDeviceIfAbsent db now d) d = true := by
  unfold insertDeviceIfAbsent
  split
  · assumption
  · simp [deviceExists]

theorem insertSubscription_fst_devices (db1 : DB) (c : Int) (d : String) :
    (insertSubscription db1 c d).1.devices = db1.devices := by
  unfold insertSubscription
  split
  · rfl
  · split <;> rfl

theorem insertSubscription_fst_users (db1 : DB) (c : Int) (d : String) :
    (insertSubscription db1 c d).1.registered_users = db1.registered_users := by
  unfold insertSubscription
  split
  · rfl
  · split <;> rfl

theorem bind_fst_devices (db : DB) (now : Nat) (c : Int) (d : String) :
    (bind db now c d).1.devices = (insertDeviceIfAbsent db now d).devices := by
  unfold bind
  exact insertSubscription_fst_devices _ c d

theorem bind_fst_users (db : DB) (now : Nat) (c : Int) (d : String) :
    (bind db now c d).1.registered_users = db.registered_users := by
  unfold bind
  rw [insertSubscription_fst_users, insertDeviceIfAbsent_users]

/-! ### C10: unbind touches nothing but the one subscription row -/

/-- C10.  `unbind(chat_id, device_id)` removes at most the subscription
row for that exact pair: the users table and the devices table are
unchanged (so an orphaned device persists — no cascade), the pair itself
is gone, and every other subscription row occurs exactly as often as
before. -/
theorem unbind_frame (db : DB) (c : Int) (d : String) :
    (unbind db c d).registered_users = db.registered_users ∧
    (unbind db c d).devices = db.devices ∧
    (c, d) ∉ (unbind db c d).user_devices ∧
    ∀ p : Int × String, p ≠ (c, d) →
      (unbind db c d).user_devices.count p = db.user_devices.count p := by
  refine ⟨rfl, rfl, ?_, ?_⟩
  · intro hmem
    simp only [unbind, List.mem_filter] at hmem
    simp at hmem
  · intro p hp
    simp only [unbind]
    rw [List.count_eq_countP, List.count_eq_countP, List.countP_filter]
    apply List.countP_congr
    intro a _
    constructor
    · intro h
      exact (Bool.and_elim_left h)
    · intro h
      have ha : a = p := by simpa using h
      subst ha
      simp [h, hp]

/-! ### C5: re-registration never changes registered_at -/

/-- C5.  For a chat_id that already has a user row, `register_user` leaves
every row's `chat_id` and `registered_at` exactly as they were: the
timestamp is set once at insertion, and only the profile fields are
updated by the `ON CONFLICT` branch. -/
theorem register_preserves_registered_at (db : DB) (now : Nat) (c : Int)
    (u f l : Option String) (h : userExists db c = true) :
    (register db now c u f l).registered_users.map (fun r => (r.chat_id, r.registered_at))
      = db.registered_users.map (fun r => (r.chat_id, r.registered_at)) := by
  simp only [register, h, if_pos, List.map_map]
  apply List.map_congr_left
  intro r _
  simp [Function.comp, updUser_chat_id, updUser_registered_at]

/-- Witness for C5 at a concrete state: user 100 registered at time 0,
re-registered at time 7 with different fields. -/
theorem register_preserves_registered_at_witness :
    userExists ⟨[⟨100, some "alice", none, none, 0⟩], [], []⟩ 100 = true ∧
    (register ⟨[⟨100, some "alice", none, none, 0⟩], [], []⟩ 7 100 none (some "A") none).registered_users.map
        (fun r => (r.chat_id, r.registered_at))
      = (⟨[⟨100, some "alice", none, none, 0⟩], [], []⟩ : DB).registered_users.map
        (fun r => (r.chat_id, r.registered_at)) :=
  ⟨by decide,
   register_preserves_registered_at ⟨[⟨100, some "alice", none, none, 0⟩], [], []⟩ 7 100
     none (some "A") none (by decide)⟩

end Registry

namespace Registry

/-! ### C6: not-found conditions are successes, not errors -/

/-- C6.  For a pair with no subscription row, `unbind` answers HTTP 200
with the state unchanged; and for a device with no subscription rows at
all (in particular, an unknown device), `list_subscribers` answers
HTTP 200 with the empty array. -/
theorem notFound_not_error (db : DB) (c : Int) (d d2 : String)
    (h1 : subExists db c d = false)
    (h2 : db.user_devices.all (fun p => !(p.2 == d2)) = true) :
    unbindHTTP db c d = (db, 200) ∧ subscribersHTTP db d2 = ([], 200) := by
  have hall : ∀ a ∈ db.user_devices, ¬ a = (c, d) := by
    simp only [subExists, List.any_eq_false, beq_iff_eq] at h1
    exact h1
  have hf : db.user_devices.filter (fun p => !(p == (c, d))) = db.user_devices := by
    rw [List.filter_eq_self]
    intro a ha
    simp [hall a ha]
  constructor
  · simp only [unbindHTTP, unbind, hf]
  · have hn : db.user_devices.filter (fun p => p.2 == d2) = [] := by
      rw [List.filter_eq_nil_iff]
      intro a ha
      simp only [List.all_eq_true] at h2
      simpa using h2 a ha
    simp [subscribersHTTP, subscribers_for_device, hn]

/-- Witness for C6: user 100 is bound to "cam1"; the pair (100, "cam2")
has no subscription row and device "cam9" has no subscribers. -/
theorem notFound_not_error_witness :
    subExists ⟨[⟨100, none, none, none, 0⟩], [⟨"cam1", none, 0⟩], [(100, "cam1")]⟩ 100 "cam2" = false ∧
    unbindHTTP ⟨[⟨100, none, none, none, 0⟩], [⟨"cam1", none, 0⟩], [(100, "cam1")]⟩ 100 "cam2"
      = (⟨[⟨100, none, none, none, 0⟩], [⟨"cam1", none, 0⟩], [(100, "cam1")]⟩, 200) ∧
    subscribersHTTP ⟨[⟨100, none, none, none, 0⟩], [⟨"cam1", none, 0⟩], [(100, "cam1")]⟩ "cam9"
      = ([], 200) :=
  ⟨by decide,
   (notFound_not_error ⟨[⟨100, none, none, none, 0⟩], [⟨"cam1", none, 0⟩], [(100, "cam1")]⟩
      100 "cam2" "cam9" (by decide) (by decide)).1,
   (notFound_not_error ⟨[⟨100, none, none, none, 0⟩], [⟨"cam1", none, 0⟩], [(100, "cam1")]⟩
      100 "cam2" "cam9" (by decide) (by decide)).2⟩

/-! ### C7: bind auto-creates a nickname-less device, or leaves it alone -/

/-- C7.  For a registered chat_id: when no device row exists, `bind`
creates one whose nickname is NULL; when a device row already exists,
`bind` leaves the devices table (hence the stored nickname) unchanged. -/
theorem bind_autocreates_device (db : DB) (now : Nat) (c : Int) (d : String)
    (h : userExists db c = true) :
    (deviceExists db d = false → nicknameOf (bind db now c d).1 d = some none) ∧
    (deviceExists db d = true → (bind db now c d).1.devices = db.devices) := by
  constructor
  · intro hd
    simp only [nicknameOf, bind_fst_devices, insertDeviceIfAbsent, hd]
    simp only [Bool.false_eq_true, if_false, List.find?_append]
    have hnone : db.devices.find? (fun r => r.device_id == d) = none := by
      rw [List.find?_eq_none]
      simp only [deviceExists, List.any_eq_false] at hd
      exact hd
    rw [hnone]
    simp
  · intro hd
    rw [bind_fst_devices]
    simp [insertDeviceIfAbsent, hd]

/-- Witness for C7: user 100 registered, device "cam1" existing with a
nickname, device "cam2" unknown. -/
theorem bind_autocreates_device_witness :
    userExists ⟨[⟨100, none, none, none, 0⟩], [⟨"cam1", some "kitchen", 0⟩], []⟩ 100 = true ∧
    deviceExists ⟨[⟨100, none, none, none, 0⟩], [⟨"cam1", some "kitchen", 0⟩], []⟩ "cam2" = false ∧
    nicknameOf (bind ⟨[⟨100, none, none, none, 0⟩], [⟨"cam1", some "kitchen", 0⟩], []⟩ 5 100 "cam2").1 "cam2" = some none ∧
    (bind ⟨[⟨100, none, none, none, 0⟩], [⟨"cam1", some "kitchen", 0⟩], []⟩ 5 100 "cam1").1.devices
      = (⟨[⟨100, none, none, none, 0⟩], [⟨"cam1", some "kitchen", 0⟩], []⟩ : DB).devices :=
  ⟨by decide, by decide,
   (bind_autocreates_device ⟨[⟨100, none, none, none, 0⟩], [⟨"cam1", some "kitchen", 0⟩], []⟩
      5 100 "cam2" (by decide)).1 (by decide),
   (bind_autocreates_device ⟨[⟨100, none, none, none, 0⟩], [⟨"cam1", some "kitchen", 0⟩], []⟩
      5 100 "cam1" (by decide)).2 (by decide)⟩

end Registry

namespace Registry

/-! ### C3: user registration is overwrite ("last write wins") -/

theorem find?_map_updUser (rows : List UserRow) (c : Int) (u f l : Option String) :
    (rows.map (updUser c u f l)).find? (fun r => r.chat_id == c)
      = (rows.find? (fun r => r.chat_id == c)).map (updUser c u f l) := by
  rw [List.find?_map]
  have hfe : (fun r => r.chat_id == c) ∘ updUser c u f l = fun r => r.chat_id == c := by
    funext r
    simp [Function.comp, updUser_chat_id]
  rw [hfe]

theorem map_chat_id_map_updUser (rows : List UserRow) (c : Int) (u f l : Option String) :
    (rows.map (updUser c u f l)).map (fun r => r.chat_id) = rows.map (fun r => r.chat_id) := by
  rw [List.map_map]
  apply List.map_congr_left
  intro r _
  simp [Function.comp, updUser_chat_id]

/-- C3.  Assuming the primary-key invariant (chat ids are pairwise
distinct), after any `register_user` call there is exactly one user row
for the supplied chat_id, its three profile fields are exactly the
supplied values (nulls included — overwrite, not merge), and the
primary-key invariant still holds, so the statement propagates through
any sequence of calls: the latest call's fields are the stored fields. -/
theorem register_overwrite (db : DB) (now : Nat) (c : Int) (u f l : Option String)
    (h : (db.registered_users.map (fun r => r.chat_id)).Nodup) :
    ((register db now c u f l).registered_users.countP (fun r => r.chat_id == c)) = 1 ∧
    ((register db now c u f l).registered_users.find? (fun r => r.chat_id == c)).map profileOf
      = some (u, f, l) ∧
    ((register db now c u f l).registered_users.map (fun r => r.chat_id)).Nodup := by
  by_cases hu : userExists db c = true
  · simp only [register, hu, if_pos]
    refine ⟨?_, ?_, ?_⟩
    · have hc : ((db.registered_users.map (updUser c u f l)).countP (fun r => r.chat_id == c))
          = db.registered_users.countP (fun r => r.chat_id == c) := by
        rw [List.countP_map]
        apply List.countP_congr
        intro r _
        simp [Function.comp, updUser_chat_id]
      rw [hc]
      have hcnt : db.registered_users.countP (fun r => r.chat_id == c)
          = (db.registered_users.map (fun r => r.chat_id)).count c := by
        rw [List.count_eq_countP, List.countP_map]
        apply List.countP_congr
        intro r _
        simp [Function.comp]
      rw [hcnt]
      apply List.count_eq_one_of_mem h
      simp only [userExists, List.any_eq_true] at hu
      obtain ⟨r, hr, hrc⟩ := hu
      simp only [List.mem_map]
      exact ⟨r, hr, by simpa using hrc⟩
    · rw [find?_map_updUser]
      have hsome : (db.registered_users.find? (fun r => r.chat_id == c)).isSome := by
        rw [List.find?_isSome]
        simp only [userExists, List.any_eq_true] at hu
        exact hu
      obtain ⟨r0, hr0⟩ := Option.isSome_iff_exists.mp hsome
      rw [hr0]
      have hp := List.find?_some (p := fun r : UserRow => r.chat_id == c) hr0
      simp only [] at hp
      simp [updUser, hp, profileOf]
    · rw [map_chat_id_map_updUser]
      exact h
  · simp only [Bool.not_eq_true] at hu
    simp only [register, hu, Bool.false_eq_true, if_false]
    rw [userExists, List.any_eq_false] at hu
    have hnone : db.registered_users.find? (fun r => r.chat_id == c) = none := by
      rw [List.find?_eq_none]
      exact hu
    have hzero : db.registered_users.countP (fun r => r.chat_id == c) = 0 := by
      rw [List.countP_eq_zero]
      exact hu
    refine ⟨?_, ?_, ?_⟩
    · rw [List.countP_append, hzero]
      simp
    · rw [List.find?_append, hnone]
      simp [profileOf]
    · rw [List.map_append, List.nodup_append]
      refine ⟨h, by simp, ?_⟩
      intro a ha
      simp only [List.mem_map] at ha
      obtain ⟨r, hr, hrc⟩ := ha
      have := hu r hr
      simp only [List.map_cons, List.map_nil, List.mem_singleton]
      intro hac
      apply this
      rw [hrc, hac]
      simp
  
/-- Witness for C3: user 100 first registered with all fields set, then
re-registered with all-null fields; the nulls win. -/
theorem register_overwrite_witness :
    ((⟨[⟨100, some "alice", some "A", some "B", 0⟩], [], []⟩ : DB).registered_users.map
        (fun r => r.chat_id)).Nodup ∧
    ((register ⟨[⟨100, some "alice", some "A", some "B", 0⟩], [], []⟩ 9 100 none none none).registered_users.countP
        (fun r => r.chat_id == 100)) = 1 ∧
    ((register ⟨[⟨100, some "alice", some "A", some "B", 0⟩], [], []⟩ 9 100 none none none).registered_users.find?
        (fun r => r.chat_id == 100)).map profileOf = some (none, none, none) :=
  ⟨by decide,
   (register_overwrite ⟨[⟨100, some "alice", some "A", some "B", 0⟩], [], []⟩ 9 100
      none none none (by decide)).1,
   (register_overwrite ⟨[⟨100, some "alice", some "A", some "B", 0⟩], [], []⟩ 9 100
      none none none (by decide)).2.1⟩

end Registry

namespace Registry

/-! ### C4: device registration merges the nickname (COALESCE) -/

theorem find?_map_updDevice (rows : List DeviceRow) (d : String) (n : Option String) :
    (rows.map (updDevice d n)).find? (fun r => r.device_id == d)
      = (rows.find? (fun r => r.device_id == d)).map (updDevice d n) := by
  rw [List.find?_map]
  have hfe : (fun r : DeviceRow => r.device_id == d) ∘ updDevice d n
      = fun r => r.device_id == d := by
    funext r
    simp [Function.comp, updDevice_device_id]
  rw [hfe]

/-- C4.  For a device whose row stores a non-null nickname,
`register_device` with a null nickname preserves the stored value, while
`register_device` with any non-null nickname replaces it — the asymmetry
with user registration coming from the `COALESCE` in the update. -/
theorem register_device_merge (db : DB) (now : Nat) (d : String) (nick : String)
    (h : nicknameOf db d = some (some nick)) :
    nicknameOf (register_device db now d none) d = some (some nick) ∧
    ∀ n : String, nicknameOf (register_device db now d (some n)) d = some (some n) := by
  simp only [nicknameOf, Option.map_eq_some'] at h
  obtain ⟨r0, hr0, hnick⟩ := h
  have hmem := List.mem_of_find?_eq_some hr0
  have hp := List.find?_some (p := fun r : DeviceRow => r.device_id == d) hr0
  simp only [] at hp
  have hex : deviceExists db d = true := by
    rw [deviceExists, List.any_eq_true]
    exact ⟨r0, hmem, hp⟩
  constructor
  · simp only [register_device, hex, if_pos, nicknameOf, find?_map_updDevice, hr0]
    simp [updDevice, hp, hnick]
  · intro n
    simp only [register_device, hex, if_pos, nicknameOf, find?_map_updDevice, hr0]
    simp [updDevice, hp]

/-- Witness for C4: device "cam1" stores nickname "kitchen"; a null
re-registration keeps it and registering "cellar" replaces it. -/
theorem register_device_merge_witness :
    nicknameOf ⟨[], [⟨"cam1", some "kitchen", 0⟩], []⟩ "cam1" = some (some "kitchen") ∧
    nicknameOf (register_device ⟨[], [⟨"cam1", some "kitchen", 0⟩], []⟩ 3 "cam1" none) "cam1"
      = some (some "kitchen") ∧
    nicknameOf (register_device ⟨[], [⟨"cam1", some "kitchen", 0⟩], []⟩ 3 "cam1" (some "cellar")) "cam1"
      = some (some "cellar") :=
  ⟨by decide,
   (register_device_merge ⟨[], [⟨"cam1", some "kitchen", 0⟩], []⟩ 3 "cam1" "kitchen" (by decide)).1,
   (register_device_merge ⟨[], [⟨"cam1", some "kitchen", 0⟩], []⟩ 3 "cam1" "kitchen" (by decide)).2 "cellar"⟩

end Registry

namespace Registry

/-! ### Case analysis of bind, and C2: bind is idempotent -/

theorem insertDeviceIfAbsent_of_exists (db : DB) (now : Nat) (d : String)
    (h : deviceExists db d = true) : insertDeviceIfAbsent db now d = db := by
  unfold insertDeviceIfAbsent
  simp [h]

theorem bind_of_sub (db : DB) (now : Nat) (c : Int) (d : String)
    (hs : subExists db c d = true) :
    bind db now c d = (insertDeviceIfAbsent db now d, Except.ok ()) := by
  unfold bind insertSubscription
  have hs1 : subExists (insertDeviceIfAbsent db now d) c d = true := by
    rw [subExists, insertDeviceIfAbsent_subs]
    exact hs
  simp [hs1]

theorem bind_of_user (db : DB) (now : Nat) (c : Int) (d : String)
    (h1 : userExists db c = true) (hs : subExists db c d = false) :
    bind db now c d
      = ({ insertDeviceIfAbsent db now d with
            user_devices := db.user_devices ++ [(c, d)] }, Except.ok ()) := by
  unfold bind insertSubscription
  have hs1 : subExists (insertDeviceIfAbsent db now d) c d = false := by
    rw [subExists, insertDeviceIfAbsent_subs]
    exact hs
  have hu1 : userExists (insertDeviceIfAbsent db now d) c = true := by
    rw [userExists, insertDeviceIfAbsent_users]
    exact h1
  simp [hs1, hu1, insertDeviceIfAbsent_exists, insertDeviceIfAbsent_subs]

theorem bind_of_no_user (db : DB) (now : Nat) (c : Int) (d : String)
    (h1 : userExists db c = false) (hs : subExists db c d = false) :
    bind db now c d
      = (insertDeviceIfAbsent db now d, Except.error DBError.foreignKeyViolation) := by
  unfold bind insertSubscription
  have hs1 : subExists (insertDeviceIfAbsent db now d) c d = false := by
    rw [subExists, insertDeviceIfAbsent_subs]
    exact hs
  have hu1 : userExists (insertDeviceIfAbsent db now d) c = false := by
    rw [userExists, insertDeviceIfAbsent_users]
    exact h1
  simp [hs1, hu1]

/-- Each occurrence of a chat_id in a device's subscriber list is exactly
an occurrence of the corresponding pair in the subscription table. -/
theorem count_subscribers (db : DB) (c : Int) (d : String) :
    (subscribers_for_device db d).count c = db.user_devices.count (c, d) := by
  rw [subscribers_for_device, List.count_eq_countP, List.countP_map, List.countP_filter,
    List.count_eq_countP]
  apply List.countP_congr
  intro p _
  simp only [Function.comp]
  constructor
  · intro hb
    have h1 : p.1 = c := by simpa using Bool.and_elim_left hb
    have h2 : p.2 = d := by simpa using Bool.and_elim_right hb
    simp [Prod.ext_iff, h1, h2]
  · intro hb
    have hp : p = (c, d) := by simpa using hb
    simp [hp]

theorem count_eq_one_of_nodup_mem {α : Type} [BEq α] [LawfulBEq α] {l : List α} {a : α}
    (hnd : l.Nodup) (hm : a ∈ l) : l.count a = 1 := by
  induction l with
  | nil => cases hm
  | cons b t ih =>
    have hn := List.nodup_cons.mp hnd
    rw [List.count_cons]
    rcases List.mem_cons.mp hm with hab | hat
    · subst hab
      rw [List.count_eq_zero.mpr hn.1]
      simp
    · rw [ih hn.2 hat]
      have hba : (b == a) = false := by
        rw [beq_eq_false_iff_ne]
        intro hba
        exact hn.1 (hba ▸ hat)
      rw [hba]
      simp

/-- C2.  For a registered chat_id (and a subscription table without
duplicate rows, as guaranteed by its primary key), a second
`bind(chat_id, device_id)` returns success and leaves the state of the
first call untouched; after the first call exactly one subscription row
for the pair exists and `list_subscribers(device_id)` contains the
chat_id exactly once. -/
theorem bind_idempotent (db : DB) (now now2 : Nat) (c : Int) (d : String)
    (h1 : userExists db c = true) (h2 : db.user_devices.Nodup) :
    bind (bind db now c d).1 now2 c d = ((bind db now c d).1, Except.ok ()) ∧
    (bind db now c d).1.user_devices.count (c, d) = 1 ∧
    (subscribers_for_device (bind db now c d).1 d).count c = 1 := by
  have hdev2 : deviceExists (bind db now c d).1 d = true := by
    rw [deviceExists, bind_fst_devices]
    exact insertDeviceIfAbsent_exists db now d
  have hmem2 : (c, d) ∈ (bind db now c d).1.user_devices := by
    by_cases hs : subExists db c d = true
    · rw [bind_of_sub db now c d hs]
      simp only [insertDeviceIfAbsent_subs]
      rw [subExists, List.any_eq_true] at hs
      obtain ⟨p, hp, hpe⟩ := hs
      have hpcd : p = (c, d) := by simpa using hpe
      rwa [hpcd] at hp
    · rw [Bool.not_eq_true] at hs
      rw [bind_of_user db now c d h1 hs]
      simp
  have hnd2 : (bind db now c d).1.user_devices.Nodup := by
    by_cases hs : subExists db c d = true
    · rw [bind_of_sub db now c d hs]
      simp only [insertDeviceIfAbsent_subs]
      exact h2
    · rw [Bool.not_eq_true] at hs
      rw [bind_of_user db now c d h1 hs]
      simp only []
      rw [List.nodup_append]
      refine ⟨h2, List.nodup_singleton _, ?_⟩
      intro a ha hmem
      rw [subExists, List.any_eq_false] at hs
      have := hs a ha
      simp only [List.mem_singleton] at hmem
      apply this
      rw [hmem]
      simp
  have hcnt : (bind db now c d).1.user_devices.count (c, d) = 1 :=
    count_eq_one_of_nodup_mem hnd2 hmem2
  refine ⟨?_, hcnt, ?_⟩
  · have hsub2 : subExists (bind db now c d).1 c d = true := by
      rw [subExists, List.any_eq_true]
      exact ⟨(c, d), hmem2, by simp⟩
    show insertSubscription (insertDeviceIfAbsent (bind db now c d).1 now2 d) c d
        = ((bind db now c d).1, Except.ok ())
    rw [insertDeviceIfAbsent_of_exists _ _ _ hdev2]
    unfold insertSubscription
    simp [hsub2]
  · rw [count_subscribers]
    exact hcnt

/-- Witness for C2: user 100 registered, then bound twice to "cam1". -/
theorem bind_idempotent_witness :
    userExists ⟨[⟨100, none, none, none, 0⟩], [], []⟩ 100 = true ∧
    ([] : List (Int × String)).Nodup ∧
    bind (bind ⟨[⟨100, none, none, none, 0⟩], [], []⟩ 1 100 "cam1").1 2 100 "cam1"
      = ((bind ⟨[⟨100, none, none, none, 0⟩], [], []⟩ 1 100 "cam1").1, Except.ok ()) ∧
    (subscribers_for_device (bind ⟨[⟨100, none, none, none, 0⟩], [], []⟩ 1 100 "cam1").1 "cam1").count 100 = 1 :=
  ⟨by decide, by decide,
   (bind_idempotent ⟨[⟨100, none, none, none, 0⟩], [], []⟩ 1 2 100 "cam1"
      (by decide) (by decide)).1,
   (bind_idempotent ⟨[⟨100, none, none, none, 0⟩], [], []⟩ 1 2 100 "cam1"
      (by decide) (by decide)).2.2⟩

end Registry

namespace Registry

/-! ### C9: referential integrity is preserved by every operation -/

theorem register_devices_eq (db : DB) (now : Nat) (c : Int) (u f l : Option String) :
    (register db now c u f l).devices = db.devices := by
  unfold register; split <;> rfl

theorem register_subs_eq (db : DB) (now : Nat) (c : Int) (u f l : Option String) :
    (register db now c u f l).user_devices = db.user_devices := by
  unfold register; split <;> rfl

theorem register_device_users_eq (db : DB) (now : Nat) (d : String) (n : Option String) :
    (register_device db now d n).registered_users = db.registered_users := by
  unfold register_device; split <;> rfl

theorem register_device_subs_eq (db : DB) (now : Nat) (d : String) (n : Option String) :
    (register_device db now d n).user_devices = db.user_devices := by
  unfold register_device; split <;> rfl

theorem userExists_register_mono (db : DB) (now : Nat) (c : Int) (u f l : Option String)
    (x : Int) (h : userExists db x = true) :
    userExists (register db now c u f l) x = true := by
  rw [userExists, List.any_eq_true] at h
  obtain ⟨r, hr, hrc⟩ := h
  rw [userExists, List.any_eq_true]
  unfold register
  split
  · exact ⟨updUser c u f l r, List.mem_map_of_mem _ hr, by rw [updUser_chat_id]; exact hrc⟩
  · exact ⟨r, List.mem_append_left _ hr, hrc⟩

theorem deviceExists_register_device_mono (db : DB) (now : Nat) (d : String)
    (n : Option String) (x : String) (h : deviceExists db x = true) :
    deviceExists (register_device db now d n) x = true := by
  rw [deviceExists, List.any_eq_true] at h
  obtain ⟨r, hr, hrd⟩ := h
  rw [deviceExists, List.any_eq_true]
  unfold register_device
  split
  · exact ⟨updDevice d n r, List.mem_map_of_mem _ hr, by rw [updDevice_device_id]; exact hrd⟩
  · exact ⟨r, List.mem_append_left _ hr, hrd⟩

theorem deviceExists_insert_mono (db : DB) (now : Nat) (d : String)
    (x : String) (h : deviceExists db x = true) :
    deviceExists (insertDeviceIfAbsent db now d) x = true := by
  rw [deviceExists, List.any_eq_true] at h
  obtain ⟨r, hr, hrd⟩ := h
  rw [deviceExists, List.any_eq_true]
  unfold insertDeviceIfAbsent
  split
  · exact ⟨r, hr, hrd⟩
  · exact ⟨r, List.mem_append_left _ hr, hrd⟩

theorem refIntegrity_insertDevice (db : DB) (now : Nat) (d : String)
    (h : refIntegrity db = true) :
    refIntegrity (insertDeviceIfAbsent db now d) = true := by
  rw [refIntegrity, List.all_eq_true] at h ⊢
  intro p hp
  rw [insertDeviceIfAbsent_subs] at hp
  have hpd := h p hp
  have hu : userExists (insertDeviceIfAbsent db now d) p.1 = true := by
    rw [userExists, insertDeviceIfAbsent_users]
    exact Bool.and_elim_left hpd
  have hd : deviceExists (insertDeviceIfAbsent db now d) p.2 = true :=
    deviceExists_insert_mono db now d p.2 (Bool.and_elim_right hpd)
  rw [hu, hd]
  rfl

theorem refIntegrity_insertSubscription (db1 : DB) (c : Int) (d : String)
    (h : refIntegrity db1 = true) :
    refIntegrity (insertSubscription db1 c d).1 = true := by
  unfold insertSubscription
  split
  · exact h
  · split
    · rename_i hcond
      rw [refIntegrity, List.all_eq_true] at h ⊢
      intro p hp
      rcases List.mem_append.mp hp with hold | hnew
      · exact h p hold
      · rw [List.mem_singleton] at hnew
        subst hnew
        exact hcond
    · exact h

/-- C9.  Referential integrity — every subscription row points at an
existing user row and an existing device row — is preserved by every
state-changing operation of the service (`register_user`,
`register_device`, `bind` whether it succeeds or fails, and `unbind`;
`list_subscribers` reads without writing). -/
theorem refIntegrity_preserved (db : DB) (now : Nat) (c : Int) (d : String)
    (u f l n : Option String) (h : refIntegrity db = true) :
    refIntegrity (register db now c u f l) = true ∧
    refIntegrity (register_device db now d n) = true ∧
    refIntegrity (bind db now c d).1 = true ∧
    refIntegrity (unbind db c d) = true := by
  refine ⟨?_, ?_, ?_, ?_⟩
  · rw [refIntegrity, List.all_eq_true]
    intro p hp
    rw [register_subs_eq] at hp
    have hpd := (List.all_eq_true.mp h) p hp
    have hu : userExists (register db now c u f l) p.1 = true :=
      userExists_register_mono db now c u f l p.1 (Bool.and_elim_left hpd)
    have hd : deviceExists (register db now c u f l) p.2 = true := by
      rw [deviceExists, register_devices_eq]
      exact Bool.and_elim_right hpd
    rw [hu, hd]
    rfl
  · rw [refIntegrity, List.all_eq_true]
    intro p hp
    rw [register_device_subs_eq] at hp
    have hpd := (List.all_eq_true.mp h) p hp
    have hu : userExists (register_device db now d n) p.1 = true := by
      rw [userExists, register_device_users_eq]
      exact Bool.and_elim_left hpd
    have hd : deviceExists (register_device db now d n) p.2 = true :=
      deviceExists_register_device_mono db now d n p.2 (Bool.and_elim_right hpd)
    rw [hu, hd]
    rfl
  · exact refIntegrity_insertSubscription _ c d (refIntegrity_insertDevice db now d h)
  · rw [refIntegrity, List.all_eq_true]
    intro p hp
    have hp0 : p ∈ db.user_devices := List.mem_of_mem_filter hp
    exact (List.all_eq_true.mp h) p hp0

/-- Witness for C9 at a populated state: user 100, device "cam1", and
the subscription (100, "cam1"). -/
theorem refIntegrity_preserved_witness :
    refIntegrity ⟨[⟨100, none, none, none, 0⟩], [⟨"cam1", none, 0⟩], [(100, "cam1")]⟩ = true ∧
    refIntegrity (bind ⟨[⟨100, none, none, none, 0⟩], [⟨"cam1", none, 0⟩], [(100, "cam1")]⟩ 4 300 "cam7").1 = true ∧
    refIntegrity (unbind ⟨[⟨100, none, none, none, 0⟩], [⟨"cam1", none, 0⟩], [(100, "cam1")]⟩ 300 "cam7") = true :=
  ⟨by decide,
   (refIntegrity_preserved ⟨[⟨100, none, none, none, 0⟩], [⟨"cam1", none, 0⟩], [(100, "cam1")]⟩
      4 300 "cam7" none none none none (by decide)).2.2.1,
   (refIntegrity_preserved ⟨[⟨100, none, none, none, 0⟩], [⟨"cam1", none, 0⟩], [(100, "cam1")]⟩
      4 300 "cam7" none none none none (by decide)).2.2.2⟩

end Registry

namespace Registry

/-! ### C8 and C1: bind against an unregistered user -/

/-- Counterexample to C8 as stated: on an empty database, binding the
never-registered chat_id 200 to "cam-new" yields HTTP 500 — a server
error, not the client-error signal the claim asserts. -/
theorem bind_missing_user_client_error_cex :
    isClientError (bindHTTP emptyDB 0 200 "cam-new").2 = false ∧
    (bindHTTP emptyDB 0 200 "cam-new").2 = 500 := by
  exact ⟨by decide, by decide⟩

/-- C8 amended.  For a chat_id with no user row (in a state satisfying
referential integrity), `bind` does not return success: the foreign-key
violation escapes the handler and is surfaced as an HTTP 500 server-error
signal — an error, but a server error rather than a client error. -/
theorem bind_missing_user_server_error (db : DB) (now : Nat) (c : Int) (d : String)
    (h1 : userExists db c = false) (h2 : refIntegrity db = true) :
    (bindHTTP db now c d).2 = 500 ∧
    isServerError (bindHTTP db now c d).2 = true ∧
    isClientError (bindHTTP db now c d).2 = false ∧
    (bindHTTP db now c d).2 ≠ 201 := by
  have hs : subExists db c d = false := by
    cases hsx : subExists db c d
    · rfl
    · exfalso
      rw [subExists, List.any_eq_true] at hsx
      obtain ⟨p, hp, hpe⟩ := hsx
      have hpcd : p = (c, d) := by simpa using hpe
      subst hpcd
      have := (List.all_eq_true.mp h2) _ hp
      have hu : userExists db c = true := Bool.and_elim_left this
      rw [h1] at hu
      exact Bool.false_ne_true hu
  have hb := bind_of_no_user db now c d h1 hs
  have h500 : (bindHTTP db now c d).2 = 500 := by
    unfold bindHTTP
    rw [hb]
  rw [h500]
  exact ⟨rfl, rfl, rfl, by decide⟩

/-- Witness for C8 (amended): fresh database, unregistered chat_id 200. -/
theorem bind_missing_user_server_error_witness :
    userExists emptyDB 200 = false ∧ refIntegrity emptyDB = true ∧
    (bindHTTP emptyDB 3 200 "cam-new").2 = 500 ∧
    isServerError (bindHTTP emptyDB 3 200 "cam-new").2 = true :=
  ⟨by decide, by decide,
   (bind_missing_user_server_error emptyDB 3 200 "cam-new" (by decide) (by decide)).1,
   (bind_missing_user_server_error emptyDB 3 200 "cam-new" (by decide) (by decide)).2.1⟩

/-- C1, evaluated at the failing input.  On an empty database,
`bind(200, "cam-new")` (chat_id 200 never registered) does fail with the
foreign-key violation and persists no subscription row — but, contrary to
the claimed atomicity, the device row for "cam-new" IS persisted, because
the handler's two INSERT statements autocommit separately (the source
opens no transaction on the acquired connection). -/
theorem bind_missing_user_persists_device :
    (bind emptyDB 0 200 "cam-new").2 = Except.error DBError.foreignKeyViolation ∧
    subExists (bind emptyDB 0 200 "cam-new").1 200 "cam-new" = false ∧
    userExists (bind emptyDB 0 200 "cam-new").1 200 = false ∧
    deviceExists (bind emptyDB 0 200 "cam-new").1 "cam-new" = true := by
  exact ⟨rfl, by decide, by decide, by decide⟩

end Registry
